import Mathlib

/-
Verification of the neighbor-guard edge alarm core.

Shallow embedding of the Python sources:
  ng_edge/services/alarm_sm.py           (AlarmStateMachine, 20251220 tree)
  ng_edge/services/state_machine.py      (ModeStateMachine v3, 20251218 tree)
  ng_edge/services/signal_pipeline.py    (DebounceFilter, SignalPipeline)
  ng_edge/services/workflow_router.py    (WorkflowRouter, ContextEvidenceChecker)
  ng_edge/services/alert_calculator.py   (AlertLevelCalculator)
  ng_edge/domain/enums.py, models.py

Conventions: datetimes become integer seconds (Int); Python Optional becomes
Option; per-sensor dicts become association lists; uuid-generated identifiers
become a Nat counter threaded through the state; callbacks (pure side effects
outside machine state) are omitted.
-/

namespace NgEdge

-- ===========================================================================
-- Enums (ng_edge/domain/enums.py)
-- ===========================================================================

/-- HouseMode from enums.py: disarmed | home | away | night. -/
inductive HouseMode where
  | disarmed
  | home
  | away
  | night
  deriving DecidableEq, Repr, Fintype

/-- NightSubMode from enums.py. -/
inductive NightSubMode where
  | nightPerimeter
  | nightOccupied
  deriving DecidableEq, Repr, Fintype

/-- WorkflowClass from enums.py. -/
inductive WorkflowClass where
  | securityHeavy
  | lifeSafety
  | suspicionLight
  | logistics
  deriving DecidableEq, Repr, Fintype

/-- AlarmState from enums.py (six members, canceled/resolved are transient). -/
inductive AlarmState where
  | quiet
  | pre
  | pending
  | triggered
  | canceled
  | resolved
  deriving DecidableEq, Repr, Fintype

/-- ZoneType from enums.py; the legacy interior aliases collapse to interior. -/
inductive ZoneType where
  | entryExit
  | perimeter
  | interior
  | exterior
  | fire24h
  | co24h
  deriving DecidableEq, Repr, Fintype

/-- LocationType from enums.py. -/
inductive LocationType where
  | indoor
  | outdoor
  | threshold
  deriving DecidableEq, Repr, Fintype

/-- SignalType from enums.py. -/
inductive SignalType where
  | doorOpen
  | doorClose
  | windowOpen
  | windowClose
  | glassBreak
  | forcedEntry
  | motionActive
  | motionClear
  | personDetected
  | vehicleDetected
  | loiter
  | approachEntry
  | smokeDetected
  | coDetected
  | fireAlarm
  | packageDelivered
  | packageRemoved
  | courierArrived
  | disarmSignal
  | armSignal
  | panic
  deriving DecidableEq, Repr, Fintype

/-- EventType from enums.py. -/
inductive EventType where
  | intrusionAttempted
  | intrusionConfirmed
  | perimeterBreach
  | forcedEntry
  | glassBreak
  | preAlert
  | authorizedAccessSession
  | activityDetected
  | packageDelivered
  | packageRemoved
  | smokeAlarm
  | coAlarm
  deriving DecidableEq, Repr, Fintype

/-- EventDisposition from enums.py. -/
inductive EventDisposition where
  | pending
  | inProgress
  | verifiedTrue
  | verifiedFalse
  | canceledBeforeTrigger
  | canceledAfterTrigger
  | resolvedByUser
  | resolvedTimeout
  | authorizedSession
  deriving DecidableEq, Repr, Fintype

/-- AccessDecision from enums.py. -/
inductive AccessDecision where
  | authorized
  | unauthorized
  | notInWindow
  deriving DecidableEq, Repr, Fintype

/-- TransitionTrigger from alarm_sm.py. -/
inductive TransitionTrigger where
  | zoneTrip
  | entryZoneViolated
  | perimeterViolated
  | breakInDetected
  | lifeSafety
  | panic
  | entryDelayExpired
  | entryInstantMode
  | followerAccelerated
  | sirenTimeout
  | resolveTimeout
  | disarm
  | cancel
  | userCancel
  | resolveByUser
  | verifiedFalse
  | verifiedTrue
  deriving DecidableEq, Repr, Fintype

/-- String rendering of an AlarmState, mirroring the Python enum values. -/
def AlarmState.toStr : AlarmState → String
  | .quiet => "quiet"
  | .pre => "pre"
  | .pending => "pending"
  | .triggered => "triggered"
  | .canceled => "canceled"
  | .resolved => "resolved"

-- ===========================================================================
-- AlarmStateMachine (alarm_sm.py)
-- ===========================================================================

/-- TransitionResult from alarm_sm.py (datetimes as Int seconds). -/
structure TransitionResult where
  success : Bool
  from_state : AlarmState
  to_state : AlarmState
  trigger : TransitionTrigger
  reason : String
  timestamp : Int
  entry_delay_sec : Option Int := none
  entry_delay_remaining_sec : Option Int := none
  deriving DecidableEq, Repr

/-- AlarmSMConfig from alarm_sm.py with its defaults. -/
structure AlarmSMConfig where
  entry_delay_away_sec : Int := 30
  entry_delay_night_occupied_sec : Int := 15
  entry_delay_night_perimeter_sec : Int := 0
  entry_delay_home_sec : Int := 30
  abort_window_sec : Int := 30
  siren_timeout_sec : Int := 180
  resolve_timeout_sec : Int := 3600
  follower_path_sec : Int := 20
  follower_accelerate_home : Bool := false
  deriving DecidableEq, Repr

/-- Mutable fields of AlarmStateMachine from alarm_sm.py. -/
structure AlarmSM where
  config : AlarmSMConfig := {}
  state : AlarmState := .quiet
  workflow_class : Option WorkflowClass := none
  disposition : EventDisposition := .pending
  pending_entered_at : Option Int := none
  triggered_at : Option Int := none
  canceled_at : Option Int := none
  resolved_at : Option Int := none
  entry_delay_sec : Int := 0
  abort_window_end : Option Int := none
  siren_timeout_end : Option Int := none
  avs_peak : Int := 0
  avs_final : Int := 0
  transitions : List TransitionResult := []
  deriving DecidableEq, Repr

/-- Fresh machine, as built by AlarmStateMachine.__init__. -/
def initAlarmSM : AlarmSM := {}

/-- AlarmStateMachine.set_avs_level: update AVS level, tracking the peak. -/
def AlarmSM.setAvsLevel (m : AlarmSM) (level : Int) : AlarmSM :=
  if level > m.avs_peak then { m with avs_peak := level } else m

/-- AlarmStateMachine._record_transition (the callback is a pure side effect
and is omitted). -/
def AlarmSM.recordTransition (m : AlarmSM) (r : TransitionResult) : AlarmSM :=
  { m with transitions := m.transitions ++ [r] }

/-- Failed transition result shared by the failure branches of alarm_sm.py. -/
def failResult (m : AlarmSM) (trigger : TransitionTrigger) (reason : String)
    (now : Int) : TransitionResult :=
  { success := false, from_state := m.state, to_state := m.state,
    trigger := trigger, reason := reason, timestamp := now }

/-- AlarmStateMachine._enter_pre. -/
def AlarmSM.enterPre (m : AlarmSM) (trigger : TransitionTrigger)
    (reason : String) (now : Int) : AlarmSM × TransitionResult :=
  if m.state ≠ AlarmState.quiet then
    (m, failResult m trigger ("Cannot enter PRE from " ++ m.state.toStr) now)
  else
    let m' : AlarmSM := { m with state := .pre, disposition := .inProgress }
    let r : TransitionResult :=
      { success := true, from_state := m.state, to_state := .pre,
        trigger := trigger, reason := reason, timestamp := now }
    (m'.recordTransition r, r)

/-- AlarmStateMachine._enter_pending (the on_pending_started callback is a
pure side effect and is omitted). -/
def AlarmSM.enterPending (m : AlarmSM) (trigger : TransitionTrigger)
    (reason : String) (entryDelaySec : Int) (now : Int) :
    AlarmSM × TransitionResult :=
  if m.state ≠ AlarmState.quiet ∧ m.state ≠ AlarmState.pre then
    (m, failResult m trigger ("Cannot enter PENDING from " ++ m.state.toStr) now)
  else
    let m' : AlarmSM :=
      { m with state := .pending, disposition := .inProgress,
               pending_entered_at := some now,
               entry_delay_sec := entryDelaySec }
    let r : TransitionResult :=
      { success := true, from_state := m.state, to_state := .pending,
        trigger := trigger, reason := reason, timestamp := now,
        entry_delay_sec := some entryDelaySec }
    (m'.recordTransition r, r)

/-- AlarmStateMachine._enter_triggered. -/
def AlarmSM.enterTriggered (m : AlarmSM) (trigger : TransitionTrigger)
    (reason : String) (now : Int) : AlarmSM × TransitionResult :=
  if m.state ≠ AlarmState.quiet ∧ m.state ≠ AlarmState.pre ∧
      m.state ≠ AlarmState.pending then
    (m, failResult m trigger ("Cannot enter TRIGGERED from " ++ m.state.toStr) now)
  else
    let m' : AlarmSM :=
      { m with state := .triggered, disposition := .inProgress,
               triggered_at := some now,
               abort_window_end := some (now + m.config.abort_window_sec) }
    let r : TransitionResult :=
      { success := true, from_state := m.state, to_state := .triggered,
        trigger := trigger, reason := reason, timestamp := now }
    (m'.recordTransition r, r)

/-- AlarmStateMachine._enter_canceled: record the event, return to QUIET and
clear the per-event timestamps. -/
def AlarmSM.enterCanceled (m : AlarmSM) (trigger : TransitionTrigger)
    (reason : String) (now : Int) : AlarmSM × TransitionResult :=
  let m' : AlarmSM := { m with canceled_at := some now, state := .quiet }
  let r : TransitionResult :=
    { success := true, from_state := m.state, to_state := .quiet,
      trigger := trigger, reason := reason ++ " → returned to QUIET",
      timestamp := now }
  let m'' := m'.recordTransition r
  ({ m'' with pending_entered_at := none, triggered_at := none }, r)

/-- AlarmStateMachine._enter_resolved: record the event, return to QUIET and
clear the per-event timestamps. -/
def AlarmSM.enterResolved (m : AlarmSM) (trigger : TransitionTrigger)
    (reason : String) (now : Int) : AlarmSM × TransitionResult :=
  let m' : AlarmSM := { m with resolved_at := some now, state := .quiet }
  let r : TransitionResult :=
    { success := true, from_state := m.state, to_state := .quiet,
      trigger := trigger, reason := reason ++ " → returned to QUIET",
      timestamp := now }
  let m'' := m'.recordTransition r
  ({ m'' with pending_entered_at := none, triggered_at := none }, r)

/-- AlarmStateMachine.get_entry_delay. -/
def getEntryDelay (cfg : AlarmSMConfig) (houseMode : HouseMode)
    (nightSubMode : Option NightSubMode) (entryPointDelay : Option Int) : Int :=
  match entryPointDelay with
  | some d => d
  | none =>
    match houseMode with
    | .away => cfg.entry_delay_away_sec
    | .night =>
      if nightSubMode = some NightSubMode.nightPerimeter then
        cfg.entry_delay_night_perimeter_sec
      else
        cfg.entry_delay_night_occupied_sec
    | .home => cfg.entry_delay_home_sec
    | .disarmed => 0

/-- AlarmStateMachine.trigger_zone_trip. -/
def AlarmSM.triggerZoneTrip (m : AlarmSM) (zoneType : ZoneType)
    (signalType : SignalType) (workflowClass : WorkflowClass)
    (houseMode : HouseMode) (nightSubMode : Option NightSubMode)
    (entryDelayOverride : Option Int) (now : Int) :
    AlarmSM × TransitionResult :=
  let m : AlarmSM := { m with workflow_class := some workflowClass }
  match workflowClass with
  | .lifeSafety =>
    m.enterTriggered .lifeSafety "Life safety signal" now
  | .suspicionLight =>
    m.enterPre .zoneTrip "Suspicion signal" now
  | .logistics =>
    (m, failResult m .zoneTrip "Logistics workflow does not enter AlarmSM" now)
  | .securityHeavy =>
    if zoneType = ZoneType.perimeter ∧ signalType = SignalType.glassBreak then
      m.enterTriggered .breakInDetected
        "Glass break in perimeter zone: immediate alarm" now
    else if zoneType = ZoneType.entryExit ∨ zoneType = ZoneType.perimeter then
      let entryDelay := getEntryDelay m.config houseMode nightSubMode entryDelayOverride
      if entryDelay = 0 then
        m.enterTriggered .entryInstantMode "Instant trigger (delay=0)" now
      else
        let trigger :=
          if zoneType = ZoneType.entryExit then TransitionTrigger.entryZoneViolated
          else TransitionTrigger.perimeterViolated
        m.enterPending trigger "zone violated" entryDelay now
    else if zoneType = ZoneType.interior then
      let entryDelay := entryDelayOverride.getD 0
      if entryDelay = 0 then
        m.enterTriggered .entryInstantMode "Interior instant trigger" now
      else
        m.enterPending .entryZoneViolated "Interior instant with delay" entryDelay now
    else
      (m, failResult m .zoneTrip "Zone type cannot initiate alarm" now)

/-- Shared tail of trigger_follower_acceleration after the T_path window
check: the HOME-mode restriction and the final escalation. -/
def AlarmSM.followerAccelTail (m : AlarmSM) (houseMode : HouseMode)
    (now : Int) : AlarmSM × TransitionResult :=
  if houseMode = HouseMode.home ∧ ¬ m.config.follower_accelerate_home then
    (m, failResult m .followerAccelerated
      "Follower acceleration disabled in HOME mode" now)
  else
    m.enterTriggered .followerAccelerated
      "Interior follower triggered during entry delay - accelerating to TRIGGERED"
      now

/-- AlarmStateMachine.trigger_follower_acceleration. -/
def AlarmSM.triggerFollowerAcceleration (m : AlarmSM) (houseMode : HouseMode)
    (now : Int) : AlarmSM × TransitionResult :=
  if m.state ≠ AlarmState.pending then
    (m, failResult m .followerAccelerated
      ("Cannot accelerate from state " ++ m.state.toStr) now)
  else
    match m.pending_entered_at with
    | some enteredAt =>
      if now - enteredAt > m.config.follower_path_sec then
        (m, failResult m .followerAccelerated
          "Follower signal outside T_path window" now)
      else
        m.followerAccelTail houseMode now
    | none => m.followerAccelTail houseMode now

/-- AlarmStateMachine.trigger_entry_delay_expired. -/
def AlarmSM.triggerEntryDelayExpired (m : AlarmSM) (now : Int) :
    AlarmSM × TransitionResult :=
  if m.state ≠ AlarmState.pending then
    (m, failResult m .entryDelayExpired
      ("Entry delay expiry ignored - not in PENDING (current: " ++ m.state.toStr ++ ")")
      now)
  else
    m.enterTriggered .entryDelayExpired "Entry delay expired" now

/-- AlarmStateMachine.trigger_user_cancel. -/
def AlarmSM.triggerUserCancel (m : AlarmSM) (now : Int) :
    AlarmSM × TransitionResult :=
  match m.state with
  | .pre =>
    let m : AlarmSM :=
      { m with avs_final := 0, disposition := .canceledBeforeTrigger }
    m.enterCanceled .userCancel "User canceled during pre-alert" now
  | .pending =>
    let m : AlarmSM :=
      { m with avs_final := 0, disposition := .canceledBeforeTrigger }
    m.enterCanceled .userCancel "User canceled during entry delay" now
  | .triggered =>
    let m : AlarmSM :=
      { m with avs_final := m.avs_peak, disposition := .canceledAfterTrigger }
    m.enterCanceled .userCancel "User canceled after trigger" now
  | _ =>
    (m, failResult m .userCancel
      ("Cannot cancel from state " ++ m.state.toStr) now)

/-- AlarmStateMachine.trigger_disarm. -/
def AlarmSM.triggerDisarm (m : AlarmSM) (now : Int) :
    AlarmSM × TransitionResult :=
  match m.state with
  | .pending =>
    let m : AlarmSM :=
      { m with avs_final := 0, disposition := .canceledBeforeTrigger }
    m.enterCanceled .disarm "Disarmed during entry delay (before trigger)" now
  | .triggered =>
    let m : AlarmSM :=
      { m with avs_final := m.avs_peak, disposition := .canceledAfterTrigger }
    m.enterCanceled .disarm "Disarmed after trigger (AVS peak preserved)" now
  | .pre =>
    let m : AlarmSM :=
      { m with avs_final := 0, disposition := .canceledBeforeTrigger }
    m.enterCanceled .disarm "Disarmed during pre-alert" now
  | _ =>
    (m, failResult m .disarm
      ("Cannot disarm from state " ++ m.state.toStr) now)

/-- AlarmStateMachine.trigger_resolve. -/
def AlarmSM.triggerResolve (m : AlarmSM) (byUser : Bool) (verifiedFalse : Bool)
    (now : Int) : AlarmSM × TransitionResult :=
  if m.state ≠ AlarmState.triggered then
    (m, failResult m .resolveByUser
      ("Cannot resolve from state " ++ m.state.toStr ++
        ", only TRIGGERED can be resolved") now)
  else if verifiedFalse then
    let m : AlarmSM := { m with avs_final := 0, disposition := .verifiedFalse }
    m.enterResolved .verifiedFalse "Event verified as false alarm" now
  else if byUser then
    let m : AlarmSM :=
      { m with avs_final := m.avs_peak, disposition := .resolvedByUser }
    m.enterResolved .resolveByUser "Event resolved by user" now
  else
    let m : AlarmSM :=
      { m with avs_final := m.avs_peak, disposition := .resolvedTimeout }
    m.enterResolved .resolveTimeout "Event resolved by timeout" now

-- ===========================================================================
-- ModeStateMachine v3 (20251218 state_machine.py)
-- ===========================================================================

/-- AlarmState of state_machine.py (v3): normal/notice/pre/pending/triggered. -/
inductive AlarmState3 where
  | normal
  | notice
  | pre
  | pending
  | triggered
  deriving DecidableEq, Repr, Fintype

/-- UserMode of state_machine.py. -/
inductive UserMode3 where
  | alert
  | quiet
  deriving DecidableEq, Repr, Fintype

/-- ZoneType of state_machine.py (v3 has four zone types). -/
inductive ZoneType3 where
  | exterior
  | entryExit
  | interior
  | perimeter
  deriving DecidableEq, Repr, Fintype

/-- SensorType of state_machine.py. -/
inductive SensorType3 where
  | camera
  | doorContact
  | pir
  | glassBreak
  deriving DecidableEq, Repr, Fintype

/-- SignalType of state_machine.py (v3 subset). -/
inductive SignalType3 where
  | personDetected
  | vehicleDetected
  | doorOpen
  | doorClose
  | motionActive
  | motionInactive
  | glassBreak
  deriving DecidableEq, Repr, Fintype

/-- Signal of state_machine.py (timestamps as Int seconds). -/
structure Signal3 where
  zone_type : ZoneType3
  signal_type : SignalType3
  sensor_type : SensorType3
  from_inside : Bool := false
  timestamp : Int := 0
  zone_id : String := ""
  sensor_id : String := ""
  deriving DecidableEq, Repr

/-- EventRecord of state_machine.py (uuid event ids become Nat). -/
structure EventRecord3 where
  event_id : Nat
  start_time : Int
  end_time : Int
  start_state : AlarmState3
  end_state : AlarmState3
  end_reason : String
  signals : List Signal3
  deriving DecidableEq, Repr

/-- StateTransition of state_machine.py. -/
structure StateTransition3 where
  success : Bool
  from_state : AlarmState3
  to_state : AlarmState3
  reason : String
  entry_delay_sec : Int := 0
  notice_sent : Bool := false
  event_record : Option EventRecord3 := none
  deriving DecidableEq, Repr

/-- Mutable fields shared by all ModeStateMachine subclasses of
state_machine.py: event store, current-event tracking and the state.
The uuid generator becomes the next_id counter; wall-clock reads become the
explicit now argument of each operation. -/
structure MSM where
  user_mode : UserMode3 := .alert
  state : AlarmState3 := .normal
  entry_delay_sec : Int := 30
  events : List EventRecord3 := []
  cur_event_id : Option Nat := none
  cur_event_start : Option Int := none
  cur_signals : List Signal3 := []
  cur_start_state : Option AlarmState3 := none
  next_id : Nat := 0
  deriving DecidableEq, Repr

/-- ModeStateMachine._start_event. -/
def MSM.startEvent (m : MSM) (signal : Signal3) (now : Int) : MSM :=
  let m :=
    if m.cur_event_id = none then
      { m with cur_event_id := some m.next_id, next_id := m.next_id + 1,
               cur_event_start := some now, cur_signals := [],
               cur_start_state := some m.state }
    else m
  { m with cur_signals := m.cur_signals ++ [signal] }

/-- ModeStateMachine._end_event: seal and store the current event, if any. -/
def MSM.endEvent (m : MSM) (reason : String) (now : Int) :
    MSM × Option EventRecord3 :=
  match m.cur_event_id with
  | none => (m, none)
  | some eid =>
    let record : EventRecord3 :=
      { event_id := eid,
        start_time := m.cur_event_start.getD 0,
        end_time := now,
        start_state := m.cur_start_state.getD .normal,
        end_state := m.state,
        end_reason := reason,
        signals := m.cur_signals }
    ({ m with events := m.events ++ [record],
              cur_event_id := none, cur_event_start := none,
              cur_signals := [], cur_start_state := none },
     some record)

/-- ModeStateMachine._stay_normal. -/
def MSM.stayNormal (m : MSM) (reason : String) : MSM × StateTransition3 :=
  (m, { success := true, from_state := m.state, to_state := m.state,
        reason := reason })

/-- ModeStateMachine._send_notice (the callback is omitted; no state change). -/
def MSM.sendNotice (m : MSM) (reason : String) : MSM × StateTransition3 :=
  (m, { success := true, from_state := m.state, to_state := m.state,
        reason := reason, notice_sent := true })

/-- ModeStateMachine._to_triggered (unconditional in the source). -/
def MSM.toTriggered (m : MSM) (reason : String) : MSM × StateTransition3 :=
  let fromState := m.state
  ({ m with state := .triggered },
   { success := true, from_state := fromState, to_state := .triggered,
     reason := reason })

/-- ModeStateMachine._to_pre. -/
def MSM.toPre (m : MSM) (reason : String) (signal : Signal3) (now : Int) :
    MSM × StateTransition3 :=
  if m.state ≠ AlarmState3.normal ∧ m.state ≠ AlarmState3.pre then
    (m, { success := false, from_state := m.state, to_state := m.state,
          reason := "Cannot PRE from current state" })
  else
    let fromState := m.state
    let m := m.startEvent signal now
    ({ m with state := .pre },
     { success := true, from_state := fromState, to_state := .pre,
       reason := reason })

/-- ModeStateMachine._to_pending: a delay of 0 falls through to
_to_triggered within the same call. -/
def MSM.toPending (m : MSM) (reason : String) (signal : Signal3)
    (delay? : Option Int) (now : Int) : MSM × StateTransition3 :=
  if m.state ≠ AlarmState3.normal ∧ m.state ≠ AlarmState3.pre then
    (m, { success := false, from_state := m.state, to_state := m.state,
          reason := "Cannot PENDING from current state" })
  else
    let fromState := m.state
    let delay := delay?.getD m.entry_delay_sec
    let m := m.startEvent signal now
    if delay = 0 then
      m.toTriggered (reason ++ " (instant)")
    else
      ({ m with state := .pending },
       { success := true, from_state := fromState, to_state := .pending,
         reason := reason, entry_delay_sec := delay })

/-- ModeStateMachine.cancel: user cancel, valid from PRE or PENDING only. -/
def MSM.cancel (m : MSM) (now : Int) : MSM × StateTransition3 :=
  if m.state ≠ AlarmState3.pre ∧ m.state ≠ AlarmState3.pending then
    (m, { success := false, from_state := m.state, to_state := m.state,
          reason := "Cannot cancel from current state" })
  else
    let fromState := m.state
    let (m, record) := m.endEvent "canceled" now
    ({ m with state := .normal },
     { success := true, from_state := fromState, to_state := .normal,
       reason := "User canceled", event_record := record })

/-- ModeStateMachine.resolve: valid from TRIGGERED only. -/
def MSM.resolve (m : MSM) (now : Int) : MSM × StateTransition3 :=
  if m.state ≠ AlarmState3.triggered then
    (m, { success := false, from_state := m.state, to_state := m.state,
          reason := "Can only resolve from TRIGGERED" })
  else
    let (m, record) := m.endEvent "resolved" now
    ({ m with state := .normal },
     { success := true, from_state := .triggered, to_state := .normal,
       reason := "Alarm resolved", event_record := record })

/-- DisarmedStateMachine.process: every signal is ignored via _stay_normal. -/
def MSM.disarmedProcess (m : MSM) (signal : Signal3) : MSM × StateTransition3 :=
  m.stayNormal ("DISARMED: signal ignored " ++ signal.zone_id)

-- ===========================================================================
-- Signal and topology models (ng_edge/domain/models.py)
-- ===========================================================================

/-- Signal from models.py (float confidence and the raw payload carry no
information used by the verified code paths and are omitted). -/
structure Signal where
  signal_id : String
  timestamp : Int
  sensor_id : String
  sensor_type : String
  signal_type : SignalType
  zone_id : String
  entry_point_id : Option String := none
  is_processed : Bool := false
  is_filtered : Bool := false
  deriving DecidableEq, Repr

/-- Zone from models.py (fields read by the verified code paths). -/
structure Zone where
  zone_id : String
  name : String := ""
  zone_type : ZoneType
  location_type : LocationType
  deriving DecidableEq, Repr

/-- EntryPoint from models.py (fields read by the verified code paths). -/
structure EntryPoint where
  entry_point_id : String
  name : String := ""
  zone_id : String := ""
  entry_delay_away_sec : Int := 30
  entry_delay_night_sec : Int := 15
  entry_delay_home_sec : Int := 30
  deriving DecidableEq, Repr

/-- Topology from models.py; the dicts become association lists. -/
structure Topology where
  zones : List (String × Zone) := []
  entry_points : List (String × EntryPoint) := []
  deriving DecidableEq, Repr

/-- Topology.get_zone. -/
def Topology.getZone (t : Topology) (zoneId : String) : Option Zone :=
  t.zones.lookup zoneId

/-- Topology.get_entry_delay. -/
def Topology.getEntryDelay (t : Topology) (entryPointId : String)
    (mode : HouseMode) (nightSubMode : Option NightSubMode) : Int :=
  match t.entry_points.lookup entryPointId with
  | none => 30
  | some ep =>
    match mode with
    | .away => ep.entry_delay_away_sec
    | .night =>
      if nightSubMode = some NightSubMode.nightPerimeter then 0
      else ep.entry_delay_night_sec
    | .home => ep.entry_delay_home_sec
    | .disarmed => 0

/-- Evidence from models.py (fields read by the verified code paths; the
uuid evidence id becomes a Nat from the pipeline counter). -/
structure Evidence where
  evidence_id : Nat
  timestamp : Int
  signal_id : String
  sensor_id : String
  sensor_type : String
  signal_type : SignalType
  zone_id : String
  zone_type : ZoneType
  location_type : LocationType
  entry_point_id : Option String := none
  deriving DecidableEq, Repr

/-- EvidenceBuilder.build from signal_pipeline.py: missing topology or zone
falls back to the exterior/outdoor defaults. -/
def buildEvidence (topology : Option Topology) (evidenceId : Nat)
    (signal : Signal) : Evidence :=
  let zoneInfo : ZoneType × LocationType :=
    match topology with
    | none => (.exterior, .outdoor)
    | some t =>
      match t.getZone signal.zone_id with
      | none => (.exterior, .outdoor)
      | some z => (z.zone_type, z.location_type)
  { evidence_id := evidenceId,
    timestamp := signal.timestamp,
    signal_id := signal.signal_id,
    sensor_id := signal.sensor_id,
    sensor_type := signal.sensor_type,
    signal_type := signal.signal_type,
    zone_id := signal.zone_id,
    zone_type := zoneInfo.1,
    location_type := zoneInfo.2,
    entry_point_id := signal.entry_point_id }

-- ===========================================================================
-- Debounce filter (signal_pipeline.py)
-- ===========================================================================

/-- DebounceConfig from signal_pipeline.py with its defaults. -/
structure DebounceConfig where
  door_min_open_duration_ms : Int := 500
  door_bounce_window_sec : Int := 5
  door_bounce_threshold : Nat := 3
  motion_cooldown_sec : Int := 10
  camera_cooldown_sec : Int := 5
  glass_break_cooldown_sec : Int := 0
  life_safety_merge_window_sec : Int := 5
  deriving DecidableEq, Repr

/-- Mutable state of DebounceFilter: per-sensor history and last-valid
times, as association lists keyed by sensor id. -/
structure DebounceFilter where
  config : DebounceConfig := {}
  signal_history : List (String × List (Int × SignalType)) := []
  last_valid : List (String × Int) := []
  deriving DecidableEq, Repr

/-- Association-list read with the defaultdict empty-list fallback. -/
def assocHist (h : List (String × List (Int × SignalType))) (k : String) :
    List (Int × SignalType) :=
  (h.lookup k).getD []

/-- Association-list write: replace the binding for one key. -/
def assocHistSet (h : List (String × List (Int × SignalType))) (k : String)
    (v : List (Int × SignalType)) : List (String × List (Int × SignalType)) :=
  (k, v) :: h.filter (fun p => p.1 ≠ k)

/-- Association-list write for the last-valid map. -/
def assocLastSet (h : List (String × Int)) (k : String) (v : Int) :
    List (String × Int) :=
  (k, v) :: h.filter (fun p => p.1 ≠ k)

/-- DebounceFilter._is_life_safety. -/
def isLifeSafetyType (st : SignalType) : Bool :=
  st = SignalType.smokeDetected ∨ st = SignalType.coDetected ∨
    st = SignalType.fireAlarm

/-- DebounceFilter.filter: returns the updated filter state together with
(should_filter, reason). The life-safety duplicate check of the source
returns (False, None) on both of its branches, so it collapses here. -/
def DebounceFilter.runFilter (df : DebounceFilter) (signal : Signal)
    (now : Int) : DebounceFilter × Bool × Option String :=
  let sensorId := signal.sensor_id
  let signalType := signal.signal_type
  -- record in history (audit trail), then drop entries older than the
  -- cleanup horizon max(door window, motion cooldown, camera cooldown, 60)
  let hist0 := assocHist df.signal_history sensorId ++ [(now, signalType)]
  let maxAge := max (max df.config.door_bounce_window_sec
      df.config.motion_cooldown_sec) (max df.config.camera_cooldown_sec 60)
  let hist := hist0.filter (fun p => p.1 ≥ now - maxAge)
  let df := { df with signal_history := assocHistSet df.signal_history sensorId hist }
  if isLifeSafetyType signalType then
    (df, false, none)
  else if signalType = SignalType.glassBreak then
    (df, false, none)
  else if signalType = SignalType.doorOpen ∨ signalType = SignalType.doorClose then
    let windowStart := now - df.config.door_bounce_window_sec
    let transitions := hist.filter (fun p =>
      p.1 ≥ windowStart ∧ (p.2 = SignalType.doorOpen ∨ p.2 = SignalType.doorClose))
    if transitions.length ≥ df.config.door_bounce_threshold then
      (df, true, some "Door bounce detected")
    else
      (df, false, none)
  else if signalType = SignalType.motionActive then
    match df.last_valid.lookup sensorId with
    | some last =>
      if now - last < df.config.motion_cooldown_sec then
        (df, true, some "Motion cooldown")
      else
        ({ df with last_valid := assocLastSet df.last_valid sensorId now },
         false, none)
    | none =>
      ({ df with last_valid := assocLastSet df.last_valid sensorId now },
       false, none)
  else if signalType = SignalType.personDetected ∨
      signalType = SignalType.vehicleDetected ∨
      signalType = SignalType.loiter ∨
      signalType = SignalType.approachEntry then
    match df.last_valid.lookup sensorId with
    | some last =>
      if now - last < df.config.camera_cooldown_sec then
        (df, true, some "Camera cooldown")
      else
        ({ df with last_valid := assocLastSet df.last_valid sensorId now },
         false, none)
    | none =>
      ({ df with last_valid := assocLastSet df.last_valid sensorId now },
       false, none)
  else
    (df, false, none)

-- ===========================================================================
-- Workflow router and context evidence (workflow_router.py)
-- ===========================================================================

/-- ContextSignal from workflow_router.py. -/
structure ContextSignal where
  signal_type : SignalType
  timestamp : Int
  entry_point_id : String
  zone_id : String
  zone_type : ZoneType
  deriving DecidableEq, Repr

/-- RouteResult from workflow_router.py. -/
structure RouteResult where
  workflow_class : WorkflowClass
  event_type : EventType
  access_decision : Option AccessDecision := none
  reason : String := ""
  has_context_evidence : Bool := false
  context_signal_count : Nat := 0
  shortened_entry_delay_sec : Option Int := none
  deriving DecidableEq, Repr

/-- LIFE_SAFETY_SIGNALS set from workflow_router.py. -/
def isLifeSafetySignal (st : SignalType) : Bool :=
  st = SignalType.smokeDetected ∨ st = SignalType.coDetected ∨
    st = SignalType.fireAlarm

/-- SECURITY_HEAVY_SIGNALS set from workflow_router.py. -/
def isSecurityHeavySignal (st : SignalType) : Bool :=
  st = SignalType.doorOpen ∨ st = SignalType.windowOpen ∨
    st = SignalType.forcedEntry ∨ st = SignalType.glassBreak ∨
    st = SignalType.panic

/-- BREAK_IN_SIGNALS set from workflow_router.py. -/
def isBreakInSignal (st : SignalType) : Bool :=
  st = SignalType.glassBreak ∨ st = SignalType.forcedEntry

/-- SUSPICION_LIGHT_SIGNALS set from workflow_router.py. -/
def isSuspicionLightSignal (st : SignalType) : Bool :=
  st = SignalType.personDetected ∨ st = SignalType.vehicleDetected ∨
    st = SignalType.loiter ∨ st = SignalType.approachEntry ∨
    st = SignalType.motionActive

/-- LOGISTICS_SIGNALS set from workflow_router.py. -/
def isLogisticsSignal (st : SignalType) : Bool :=
  st = SignalType.packageDelivered ∨ st = SignalType.packageRemoved ∨
    st = SignalType.courierArrived

/-- SECURITY_HEAVY_ZONES set from workflow_router.py. -/
def isSecurityHeavyZone (zt : ZoneType) : Bool :=
  zt = ZoneType.entryExit ∨ zt = ZoneType.perimeter ∨
    zt = ZoneType.interior ∨ zt = ZoneType.fire24h ∨ zt = ZoneType.co24h

/-- ALWAYS_ARMED_ZONES set from workflow_router.py. -/
def isAlwaysArmedZone (zt : ZoneType) : Bool :=
  zt = ZoneType.fire24h ∨ zt = ZoneType.co24h

/-- CONTEXT_EVIDENCE_SIGNALS set of ContextEvidenceChecker. -/
def isContextEvidenceSignal (st : SignalType) : Bool :=
  st = SignalType.approachEntry ∨ st = SignalType.loiter ∨
    st = SignalType.personDetected

/-- CONTEXT_ENHANCEABLE_TRIGGERS set of ContextEvidenceChecker. -/
def isContextEnhanceableTrigger (st : SignalType) : Bool :=
  st = SignalType.doorOpen ∨ st = SignalType.windowOpen ∨
    st = SignalType.glassBreak ∨ st = SignalType.forcedEntry

/-- Matching predicate of the loop inside check_for_context_evidence: in the
30 s window, a context-eligible type, and (when an entry point is given and
non-empty, mirroring Python truthiness) the same entry point. -/
def contextSignalMatches (triggerTimestamp : Int) (entryPointId : Option String)
    (sig : ContextSignal) : Bool :=
  (sig.timestamp ≥ triggerTimestamp - 30) &&
  isContextEvidenceSignal sig.signal_type &&
  (match entryPointId with
   | none => true
   | some e => e = "" ∨ sig.entry_point_id = e)

/-- ContextEvidenceChecker.check_for_context_evidence: returns
(has_context, context_count, shortened_delay). The shortening uses
floor division as Python // does. -/
def checkForContextEvidence (triggerSignal : SignalType)
    (triggerTimestamp : Int) (entryPointId : Option String)
    (recentSignals : List ContextSignal) (houseMode : HouseMode)
    (nightSubMode : Option NightSubMode) (baseEntryDelaySec : Int) :
    Bool × Nat × Option Int :=
  if ¬ isContextEnhanceableTrigger triggerSignal then
    (false, 0, none)
  else if recentSignals.isEmpty then
    (false, 0, none)
  else
    let matching := recentSignals.filter
      (contextSignalMatches triggerTimestamp entryPointId)
    let hasContext : Bool := decide (0 < matching.length)
    let contextCount := matching.length
    let shortened : Option Int :=
      if hasContext ∧ houseMode = HouseMode.night then
        -- night_sub_mode defaults to occupied when unspecified
        let isOccupied : Bool :=
          match nightSubMode with
          | some s => decide (s ≠ NightSubMode.nightPerimeter)
          | none => true
        if isOccupied then some (min 10 (Int.fdiv baseEntryDelaySec 3))
        else none
      else none
    (hasContext, contextCount, shortened)

/-- WorkflowRouter._route_life_safety. -/
def routeLifeSafety (signalType : SignalType)
    (accessDecision : Option AccessDecision) : RouteResult :=
  let eventType :=
    if signalType = SignalType.smokeDetected then EventType.smokeAlarm
    else if signalType = SignalType.coDetected then EventType.coAlarm
    else EventType.smokeAlarm
  { workflow_class := .lifeSafety, event_type := eventType,
    access_decision := accessDecision,
    reason := "LIFE_SAFETY signal - 24H priority" }

/-- WorkflowRouter._route_logistics. -/
def routeLogistics (signalType : SignalType) : RouteResult :=
  let eventType :=
    if signalType = SignalType.packageDelivered then EventType.packageDelivered
    else if signalType = SignalType.packageRemoved then EventType.packageRemoved
    else EventType.packageDelivered
  { workflow_class := .logistics, event_type := eventType,
    reason := "LOGISTICS signal" }

/-- WorkflowRouter._route_suspicion_light (both mode branches of the source
produce PRE_ALERT). -/
def routeSuspicionLight (accessDecision : Option AccessDecision) : RouteResult :=
  { workflow_class := .suspicionLight, event_type := .preAlert,
    access_decision := accessDecision,
    reason := "SUSPICION_LIGHT in EXTERIOR zone" }

/-- WorkflowRouter._route_security_heavy, including the optional context
evidence check (skipped when recent signals or the timestamp are missing,
mirroring the truthiness guard in the source). -/
def routeSecurityHeavy (signalType : SignalType) (zoneType : ZoneType)
    (accessDecision : Option AccessDecision)
    (recentSignals : List ContextSignal) (signalTimestamp : Option Int)
    (entryPointId : Option String) (houseMode : HouseMode)
    (nightSubMode : Option NightSubMode) (baseEntryDelaySec : Int) :
    RouteResult :=
  let eventType :=
    if signalType = SignalType.glassBreak then EventType.glassBreak
    else if signalType = SignalType.forcedEntry then EventType.forcedEntry
    else if zoneType = ZoneType.perimeter then EventType.perimeterBreach
    else EventType.intrusionAttempted
  let ctx : Bool × Nat × Option Int :=
    match signalTimestamp with
    | some ts =>
      if recentSignals.isEmpty then (false, 0, none)
      else checkForContextEvidence signalType ts entryPointId recentSignals
        houseMode nightSubMode baseEntryDelaySec
    | none => (false, 0, none)
  { workflow_class := .securityHeavy, event_type := eventType,
    access_decision := accessDecision,
    reason := "SECURITY_HEAVY",
    has_context_evidence := ctx.1,
    context_signal_count := ctx.2.1,
    shortened_entry_delay_sec := ctx.2.2 }

/-- WorkflowRouter.route. Branches that the Python code falls through
without returning are modelled as none and resolved by the priority chain
at the end (security-heavy block, then suspicion-light block, then the
default result). -/
def route (signalType : SignalType) (zoneType : ZoneType)
    (houseMode : HouseMode) (accessDecision : Option AccessDecision)
    (recentInteriorActivity : Bool) (recentExteriorActivity : Bool)
    (nightSubMode : Option NightSubMode)
    (recentSignals : List ContextSignal) (signalTimestamp : Option Int)
    (entryPointId : Option String) (baseEntryDelaySec : Int) : RouteResult :=
  if isLifeSafetySignal signalType then
    routeLifeSafety signalType accessDecision
  else if accessDecision = some AccessDecision.authorized ∧
      ¬ isBreakInSignal signalType then
    { workflow_class := .suspicionLight,
      event_type := .authorizedAccessSession,
      access_decision := accessDecision,
      reason := "ServiceAccessWindow AUTHORIZED - routed to audit session" }
  else if isLogisticsSignal signalType then
    routeLogistics signalType
  else
    let isArmed := houseMode ≠ HouseMode.disarmed
    let is24hZone := isAlwaysArmedZone zoneType
    let isHomeMode := houseMode = HouseMode.home
    let isNightMode := houseMode = HouseMode.night
    let securityBranch : Option RouteResult :=
      if isSecurityHeavySignal signalType ∧ (isArmed ∨ is24hZone) then
        if isHomeMode then
          if isBreakInSignal signalType then
            some (routeSecurityHeavy signalType zoneType accessDecision
              recentSignals signalTimestamp entryPointId houseMode
              nightSubMode baseEntryDelaySec)
          else if zoneType = ZoneType.entryExit ∨ zoneType = ZoneType.interior then
            some { workflow_class := .suspicionLight,
                   event_type := .activityDetected,
                   access_decision := accessDecision,
                   reason := "HOME mode activity - no alarm" }
          else none
        else if isNightMode then
          if isBreakInSignal signalType then
            some (routeSecurityHeavy signalType zoneType accessDecision
              recentSignals signalTimestamp entryPointId houseMode
              nightSubMode baseEntryDelaySec)
          else if nightSubMode = some NightSubMode.nightPerimeter ∧
              isSecurityHeavyZone zoneType then
            some (routeSecurityHeavy signalType zoneType accessDecision
              recentSignals signalTimestamp entryPointId houseMode
              nightSubMode baseEntryDelaySec)
          else if zoneType = ZoneType.interior then
            some { workflow_class := .suspicionLight,
                   event_type := .activityDetected,
                   access_decision := accessDecision,
                   reason := "NIGHT mode interior activity - no alarm" }
          else if zoneType = ZoneType.entryExit then
            if recentExteriorActivity ∧ ¬ recentInteriorActivity then
              some (routeSecurityHeavy signalType zoneType accessDecision
                recentSignals signalTimestamp entryPointId houseMode
                nightSubMode baseEntryDelaySec)
            else
              some { workflow_class := .suspicionLight,
                     event_type := .activityDetected,
                     access_decision := accessDecision,
                     reason := "NIGHT mode: door open from inside - no alarm (family leaving)" }
          else if zoneType = ZoneType.perimeter then
            some (routeSecurityHeavy signalType zoneType accessDecision
              recentSignals signalTimestamp entryPointId houseMode
              nightSubMode baseEntryDelaySec)
          else none
        else
          if isSecurityHeavyZone zoneType then
            some (routeSecurityHeavy signalType zoneType accessDecision
              recentSignals signalTimestamp entryPointId houseMode
              nightSubMode baseEntryDelaySec)
          else none
      else none
    match securityBranch with
    | some r => r
    | none =>
      let suspicionBranch : Option RouteResult :=
        if isSuspicionLightSignal signalType then
          if zoneType = ZoneType.exterior then
            if isHomeMode then
              some { workflow_class := .suspicionLight,
                     event_type := .activityDetected,
                     access_decision := accessDecision,
                     reason := "HOME mode exterior activity - no alert" }
            else some (routeSuspicionLight accessDecision)
          else if zoneType = ZoneType.interior then
            if isHomeMode then
              some { workflow_class := .suspicionLight,
                     event_type := .activityDetected,
                     access_decision := accessDecision,
                     reason := "HOME mode interior activity - no alarm" }
            else if isNightMode ∧ nightSubMode ≠ some NightSubMode.nightPerimeter then
              some { workflow_class := .suspicionLight,
                     event_type := .activityDetected,
                     access_decision := accessDecision,
                     reason := "NIGHT mode interior activity - no alarm" }
            else if isArmed then
              some { workflow_class := .securityHeavy,
                     event_type := .intrusionConfirmed,
                     access_decision := accessDecision,
                     reason := "INTERIOR motion in armed mode - immediate alarm" }
            else none
          else none
        else none
      match suspicionBranch with
      | some r => r
      | none =>
        { workflow_class := .suspicionLight, event_type := .preAlert,
          access_decision := accessDecision,
          reason := "No specific routing rule" }

/-- WorkflowRouter.should_create_event. -/
def shouldCreateEvent (result : RouteResult) (houseMode : HouseMode) : Bool :=
  if result.workflow_class = WorkflowClass.lifeSafety then true
  else if result.workflow_class = WorkflowClass.logistics then true
  else if houseMode = HouseMode.disarmed then
    result.event_type = EventType.authorizedAccessSession
  else true

-- ===========================================================================
-- Alert level calculator (alert_calculator.py)
-- ===========================================================================

/-- DispatchRecommendation from enums.py. -/
inductive DispatchRec where
  | noDispatch
  | continueVerify
  | recommendCallForService
  deriving DecidableEq, Repr, Fintype

/-- AlertPolicy from alert_calculator.py with its defaults. -/
structure AlertPolicy where
  notify_suspicion_in_home : Bool := false
  notify_logistics : Bool := false
  night_package_protection : Bool := false
  quiet_hours : Bool := false
  home_notify_zones : List String := []
  deriving DecidableEq, Repr

/-- AlertContext from alert_calculator.py (integer levels stand for the
IntEnum members: 0 none, 1 soft, 2 strong, 3 alarm). -/
structure AlertContext where
  workflow_class : WorkflowClass
  alarm_state : AlarmState
  house_mode : HouseMode
  night_sub_mode : Option NightSubMode := none
  zone_type : Option ZoneType := none
  zone_id : Option String := none
  entry_point_id : Option String := none
  signal_type : Option SignalType := none
  event_disposition : Option EventDisposition := none
  avs_level : Int := 0
  has_follower_confirmation : Bool := false
  has_multi_zone : Bool := false
  has_video_confirmation : Bool := false
  deriving DecidableEq, Repr

/-- AlertLevelCalculator._calculate_security_heavy_level (PRD §1.4.1
rows 2-4), as a function of the three fields it reads. -/
def securityHeavyLevel (state : AlarmState) (mode : HouseMode)
    (nightSub : Option NightSubMode) : Nat :=
  if state = AlarmState.triggered then 3
  else if state = AlarmState.pending then
    match mode with
    | .away => 3
    | .night => if nightSub = some NightSubMode.nightPerimeter then 3 else 2
    | .home => 2
    | .disarmed => 0
  else if state = AlarmState.pre then
    if mode = HouseMode.away ∨ mode = HouseMode.night then 2 else 1
  else 0

/-- Python truthiness of an optional string: None and "" are falsy. -/
def optStrTruthy : Option String → Bool
  | some e => decide (e ≠ "")
  | none => false

/-- Zone-specific override of _calculate_suspicion_level: context.zone_id
truthy and listed in the policy's home_notify_zones. -/
def zoneNotifyHit (policy : AlertPolicy) : Option String → Bool
  | some z => decide (z ≠ "") && policy.home_notify_zones.contains z
  | none => false

/-- AlertLevelCalculator._calculate_suspicion_level. Python truthiness of
the optional string fields (None and the empty string are falsy) is made
explicit. -/
def suspicionLevel (policy : AlertPolicy) (ctx : AlertContext) : Nat :=
  if ctx.house_mode = HouseMode.disarmed then 0
  else if ctx.alarm_state = AlarmState.pre ∧
      (ctx.house_mode = HouseMode.away ∨ ctx.house_mode = HouseMode.night) then 2
  else if ctx.house_mode = HouseMode.away ∨ ctx.house_mode = HouseMode.night then 1
  else if ctx.house_mode = HouseMode.home then
    if policy.notify_suspicion_in_home then 1
    else if policy.quiet_hours ∧
        (ctx.zone_type = some ZoneType.entryExit ∨
         ctx.zone_type = some ZoneType.perimeter) then 1
    else if policy.quiet_hours ∧ optStrTruthy ctx.entry_point_id then 1
    else if zoneNotifyHit policy ctx.zone_id then 1
    else if ctx.signal_type = some SignalType.vehicleDetected then 0
    else 0
  else 0

/-- AlertLevelCalculator._calculate_logistics_level. -/
def logisticsLevel (policy : AlertPolicy) (ctx : AlertContext) : Nat :=
  if policy.notify_logistics then 1
  else if policy.night_package_protection ∧
      ctx.house_mode = HouseMode.night then 1
  else 0

/-- AlertLevelCalculator._calculate_user_alert_level. -/
def userAlertLevel (policy : AlertPolicy) (ctx : AlertContext) : Nat :=
  match ctx.workflow_class with
  | .lifeSafety => 3
  | .logistics => logisticsLevel policy ctx
  | .suspicionLight => suspicionLevel policy ctx
  | .securityHeavy =>
    securityHeavyLevel ctx.alarm_state ctx.house_mode ctx.night_sub_mode

/-- AlertLevelCalculator._has_intrusion_confirmation. -/
def hasIntrusionConfirmation (ctx : AlertContext) : Bool :=
  ctx.has_follower_confirmation || ctx.has_multi_zone ||
    ctx.has_video_confirmation

/-- AlertLevelCalculator._calculate_security_dispatch. -/
def securityDispatch (ctx : AlertContext) : Nat × DispatchRec :=
  if ctx.alarm_state = AlarmState.quiet ∨ ctx.alarm_state = AlarmState.pre then
    (0, .noDispatch)
  else if ctx.alarm_state = AlarmState.pending ∨
      ctx.alarm_state = AlarmState.triggered then
    if hasIntrusionConfirmation ctx then
      if ctx.avs_level ≥ 2 then (2, .recommendCallForService)
      else (2, .continueVerify)
    else (1, .continueVerify)
  else (0, .noDispatch)

/-- AlertLevelCalculator._calculate_dispatch_readiness. -/
def dispatchReadiness (ctx : AlertContext) : Nat × DispatchRec :=
  if ctx.event_disposition = some EventDisposition.canceledBeforeTrigger ∨
      ctx.event_disposition = some EventDisposition.canceledAfterTrigger ∨
      ctx.event_disposition = some EventDisposition.verifiedFalse then
    (0, .noDispatch)
  else if ctx.workflow_class = WorkflowClass.suspicionLight ∨
      ctx.workflow_class = WorkflowClass.logistics then
    (0, .noDispatch)
  else if ctx.workflow_class = WorkflowClass.lifeSafety then
    (3, .recommendCallForService)
  else
    securityDispatch ctx

/-- AlertLevelResult of alert_calculator.py (the reason string carries no
verified information and is omitted). -/
structure AlertLevelResult where
  user_alert_level : Nat
  dispatch_readiness_local : Nat
  dispatch_recommendation : DispatchRec
  deriving DecidableEq, Repr

/-- AlertLevelCalculator.calculate. -/
def calculateAlerts (policy : AlertPolicy) (ctx : AlertContext) :
    AlertLevelResult :=
  let d := dispatchReadiness ctx
  { user_alert_level := userAlertLevel policy ctx,
    dispatch_readiness_local := d.1,
    dispatch_recommendation := d.2 }

-- ===========================================================================
-- Security event and pipeline (signal_pipeline.py)
-- ===========================================================================

/-- SecurityEvent from models.py (fields touched by the pipeline; uuid ids
become Nat from the pipeline counter). -/
structure SecurityEvent where
  event_id : Nat
  created_at : Int
  updated_at : Int
  event_type : EventType
  workflow_class : WorkflowClass
  alarm_state : AlarmState := .quiet
  event_disposition : EventDisposition := .pending
  house_mode : HouseMode
  night_sub_mode : Option NightSubMode := none
  primary_zone_id : String
  entry_point_id : Option String := none
  evidence_ids : List Nat := []
  trigger_signal_id : Option String := none
  user_alert_level : Nat := 0
  user_alert_level_peak : Nat := 0
  dispatch_readiness_local : Nat := 0
  dispatch_recommendation_local : DispatchRec := .noDispatch
  entry_delay_sec : Int := 0
  pending_started_at : Option Int := none
  triggered_at : Option Int := none
  avs_level : Int := 0
  avs_level_peak : Int := 0
  access_decision : Option AccessDecision := none
  revision : Nat := 1
  deriving DecidableEq, Repr

/-- SecurityEvent.update_peak_levels. -/
def SecurityEvent.updatePeakLevels (ev : SecurityEvent) : SecurityEvent :=
  let ev :=
    if ev.user_alert_level > ev.user_alert_level_peak then
      { ev with user_alert_level_peak := ev.user_alert_level }
    else ev
  if ev.avs_level > ev.avs_level_peak then
    { ev with avs_level_peak := ev.avs_level }
  else ev

/-- Workflow-class priority map of SignalPipeline._maybe_upgrade_workflow
(higher is more severe). -/
def wfPriority : WorkflowClass → Nat
  | .logistics => 0
  | .suspicionLight => 1
  | .securityHeavy => 2
  | .lifeSafety => 3

/-- SignalPipeline._maybe_upgrade_workflow: upgrade the event workflow
class when the new routing is strictly more severe, never downgrade. -/
def maybeUpgradeWorkflow (ev : SecurityEvent) (rr : RouteResult) :
    SecurityEvent :=
  if wfPriority rr.workflow_class > wfPriority ev.workflow_class then
    { ev with workflow_class := rr.workflow_class,
              event_type := rr.event_type }
  else ev

/-- Mutable state of SignalPipeline (callbacks omitted; uuid counters made
explicit). -/
structure Pipeline where
  topology : Option Topology := none
  houseMode : HouseMode := .disarmed
  nightSubMode : Option NightSubMode := none
  alertPolicy : AlertPolicy := {}
  debounce : DebounceFilter := {}
  alarmSM : AlarmSM := {}
  activeEvent : Option SecurityEvent := none
  evidenceLedger : List Evidence := []
  recentActivity : List (Int × ZoneType × SignalType) := []
  counter : Nat := 0
  deriving Repr

/-- Most recent timestamp of an activity entry in the given zone type, as
computed by the scanning loop of SignalPipeline._get_recent_activity. -/
def lastZoneTs (acts : List (Int × ZoneType × SignalType)) (zt : ZoneType) :
    Option Int :=
  acts.foldl
    (fun acc a =>
      if a.2.1 = zt then
        match acc with
        | none => some a.1
        | some t => if a.1 > t then some a.1 else acc
      else acc)
    none

/-- SignalPipeline._get_recent_activity: trims the rolling history to the
60 s direction window and reports (interior, exterior) booleans where the
more recent kind of activity wins. -/
def getRecentActivity (acts : List (Int × ZoneType × SignalType))
    (now : Int) : List (Int × ZoneType × SignalType) × Bool × Bool :=
  let cutoff := now - 60
  let acts' := acts.filter (fun a => a.1 ≥ cutoff)
  if acts'.isEmpty then (acts', false, false)
  else
    let lastInteriorTs := lastZoneTs acts' ZoneType.interior
    let lastExteriorTs := lastZoneTs acts' ZoneType.exterior
    match lastExteriorTs, lastInteriorTs with
    | some e, some i =>
      if e > i then (acts', false, true) else (acts', true, false)
    | some _, none => (acts', false, true)
    | none, some _ => (acts', true, false)
    | none, none => (acts', false, false)

/-- SignalPipeline._has_follower_confirmation. -/
def hasFollowerConfirmation (ledger : List Evidence) : Bool :=
  ledger.any (fun ev => ev.zone_type = ZoneType.interior)

/-- SignalPipeline._has_multi_zone: at least two distinct zone ids in the
evidence ledger. -/
def hasMultiZone (ledger : List Evidence) : Bool :=
  ((ledger.map (fun ev => ev.zone_id)).eraseDups).length ≥ 2

/-- SignalPipeline._update_alarm_sm. -/
def updateAlarmSM (sm : AlarmSM) (houseMode : HouseMode)
    (nightSubMode : Option NightSubMode) (topology : Option Topology)
    (signal : Signal) (evidence : Evidence) (rr : RouteResult) (now : Int) :
    AlarmSM × Option TransitionResult :=
  -- interior follower acceleration during PENDING
  if sm.state = AlarmState.pending ∧
      evidence.zone_type = ZoneType.interior ∧
      signal.signal_type = SignalType.motionActive then
    let r := sm.triggerFollowerAcceleration houseMode now
    (r.1, some r.2)
  -- interior with no prior event: direct trigger with 0 delay
  else if evidence.zone_type = ZoneType.interior ∧
      rr.workflow_class = WorkflowClass.securityHeavy ∧
      (sm.state = AlarmState.quiet ∨ sm.state = AlarmState.pre) then
    let r := sm.triggerZoneTrip evidence.zone_type signal.signal_type
      rr.workflow_class houseMode nightSubMode (some 0) now
    (r.1, some r.2)
  -- normal zone trip for the three alarm-relevant workflow classes
  else if rr.workflow_class = WorkflowClass.securityHeavy ∨
      rr.workflow_class = WorkflowClass.lifeSafety ∨
      rr.workflow_class = WorkflowClass.suspicionLight then
    let entryDelay : Option Int :=
      match signal.entry_point_id, topology with
      | some epid, some topo =>
        if epid = "" then none
        else some (topo.getEntryDelay epid houseMode nightSubMode)
      | _, _ => none
    let r := sm.triggerZoneTrip evidence.zone_type signal.signal_type
      rr.workflow_class houseMode nightSubMode entryDelay now
    (r.1, some r.2)
  else
    (sm, none)

/-- SignalPipeline._manage_event: create the active event or update it in
place. Returns (event, created flag). -/
def manageEvent (activeEvent : Option SecurityEvent) (sm : AlarmSM)
    (rr : RouteResult) (signal : Signal) (evidence : Evidence)
    (transition : Option TransitionResult) (houseMode : HouseMode)
    (nightSubMode : Option NightSubMode) (freshId : Nat) (now : Int) :
    SecurityEvent × Bool :=
  match activeEvent with
  | none =>
    ({ event_id := freshId,
       created_at := now,
       updated_at := now,
       event_type := rr.event_type,
       workflow_class := rr.workflow_class,
       alarm_state := sm.state,
       house_mode := houseMode,
       night_sub_mode := nightSubMode,
       primary_zone_id := evidence.zone_id,
       entry_point_id := signal.entry_point_id,
       evidence_ids := [evidence.evidence_id],
       trigger_signal_id := some signal.signal_id,
       entry_delay_sec := sm.entry_delay_sec,
       pending_started_at := sm.pending_entered_at,
       access_decision := rr.access_decision }, true)
  | some ev =>
    let ev := { ev with updated_at := now, alarm_state := sm.state,
                        evidence_ids := ev.evidence_ids ++ [evidence.evidence_id],
                        revision := ev.revision + 1 }
    let ev :=
      if sm.state = AlarmState.pending ∧ ev.entry_delay_sec = 0 then
        { ev with entry_delay_sec := sm.entry_delay_sec,
                  pending_started_at := sm.pending_entered_at }
      else ev
    let ev := maybeUpgradeWorkflow ev rr
    let ev :=
      match transition with
      | some t =>
        if t.success then
          match sm.triggered_at with
          | some ts => { ev with triggered_at := some ts }
          | none => ev
        else ev
      | none => ev
    (ev, false)

/-- SignalPipeline._calculate_alerts followed by _update_event_alerts:
compute the alert levels for the active event and write them back. -/
def applyAlerts (policy : AlertPolicy) (ev : SecurityEvent)
    (ledger : List Evidence) : SecurityEvent :=
  let ctx : AlertContext :=
    { workflow_class := ev.workflow_class,
      alarm_state := ev.alarm_state,
      house_mode := ev.house_mode,
      night_sub_mode := ev.night_sub_mode,
      zone_type := none,
      event_disposition := some ev.event_disposition,
      avs_level := ev.avs_level,
      has_follower_confirmation := hasFollowerConfirmation ledger,
      has_multi_zone := hasMultiZone ledger }
  let res := calculateAlerts policy ctx
  ({ ev with user_alert_level := res.user_alert_level,
             dispatch_readiness_local := res.dispatch_readiness_local,
             dispatch_recommendation_local := res.dispatch_recommendation
   }).updatePeakLevels

/-- ProcessedSignal from signal_pipeline.py (result summary fields). -/
structure ProcessedSignal where
  signal : Signal
  is_filtered : Bool := false
  filter_reason : Option String := none
  evidence : Option Evidence := none
  route_result : Option RouteResult := none
  transition : Option TransitionResult := none
  alert_result : Option AlertLevelResult := none
  event_id : Option Nat := none
  event_created : Bool := false
  deriving DecidableEq, Repr

/-- SignalPipeline.process: the six pipeline stages. The pipeline invokes
the router without context-evidence arguments (empty recent signals, no
timestamp, no entry point, default base delay), exactly as the source does. -/
def Pipeline.process (p : Pipeline) (signal : Signal)
    (accessDecision : Option AccessDecision) (now : Int) :
    Pipeline × ProcessedSignal :=
  -- stage 1: debounce filter
  let fr := p.debounce.runFilter signal now
  let db' := fr.1
  if fr.2.1 then
    ({ p with debounce := db' },
     { signal := { signal with is_filtered := true }, is_filtered := true,
       filter_reason := fr.2.2 })
  else
    -- stage 2: evidence
    let evd := buildEvidence p.topology p.counter signal
    let ledger' := p.evidenceLedger ++ [evd]
    -- stage 2.5: direction detection, then record this activity
    let ga := getRecentActivity p.recentActivity now
    let recentInterior := ga.2.1
    let recentExterior := ga.2.2
    let acts' := ga.1 ++ [(now, evd.zone_type, signal.signal_type)]
    -- stage 3: route
    let rr := route signal.signal_type evd.zone_type p.houseMode
      accessDecision recentInterior recentExterior p.nightSubMode [] none none 30
    if ¬ shouldCreateEvent rr p.houseMode then
      ({ p with debounce := db', evidenceLedger := ledger',
                recentActivity := acts', counter := p.counter + 1 },
       { signal := signal, evidence := some evd, route_result := some rr })
    else
      -- stage 4: alarm state machine
      let usm := updateAlarmSM p.alarmSM p.houseMode p.nightSubMode p.topology
        signal evd rr now
      let sm' := usm.1
      -- stage 5: create or update the event
      let me := manageEvent p.activeEvent sm' rr signal evd usm.2 p.houseMode
        p.nightSubMode p.counter now
      -- stage 6: alert levels
      let ev' := applyAlerts p.alertPolicy me.1 ledger'
      ({ p with debounce := db', evidenceLedger := ledger',
                recentActivity := acts', alarmSM := sm',
                activeEvent := some ev', counter := p.counter + 1 },
       { signal := signal, evidence := some evd, route_result := some rr,
         transition := usm.2, event_id := some ev'.event_id,
         event_created := me.2 })

-- ===========================================================================
-- Concrete fixtures used by witnesses and counterexamples
-- ===========================================================================

/-- Concrete smoke signal (used to exercise life-safety paths). -/
def smokeSig : Signal :=
  { signal_id := "s1", timestamp := 100, sensor_id := "sm1",
    sensor_type := "smoke", signal_type := .smokeDetected, zone_id := "z9" }

/-- Concrete door-open signal without entry-point binding. -/
def doorSig : Signal :=
  { signal_id := "d1", timestamp := 100, sensor_id := "dc1",
    sensor_type := "door_contact", signal_type := .doorOpen, zone_id := "z2" }

/-- Concrete glass-break signal. -/
def glassSig : Signal :=
  { signal_id := "g1", timestamp := 7, sensor_id := "gb",
    sensor_type := "glass_break", signal_type := .glassBreak, zone_id := "z1" }

/-- Concrete exterior person-detected context signal at entry point ep1. -/
def ctxPerson : ContextSignal :=
  { signal_type := .personDetected, timestamp := 90, entry_point_id := "ep1",
    zone_id := "z1", zone_type := .exterior }

/-- Concrete open suspicion-light event (used to exercise event updates). -/
def openSuspicionEvent : SecurityEvent :=
  { event_id := 0, created_at := 50, updated_at := 50,
    event_type := .preAlert, workflow_class := .suspicionLight,
    alarm_state := .pre, house_mode := .away, primary_zone_id := "z2" }

/-- Concrete armed pipeline in away mode carrying the open event. -/
def awayPipeline : Pipeline :=
  { houseMode := .away, activeEvent := some openSuspicionEvent }

-- ===========================================================================
-- Theorems
-- ===========================================================================

/-- Helper: a single set_avs_level call never decreases the AVS peak. -/
theorem setAvsLevel_peak_le (m : AlarmSM) (l : Int) :
    m.avs_peak ≤ (m.setAvsLevel l).avs_peak := by
  unfold AlarmSM.setAvsLevel
  split
  · exact le_of_lt (by assumption)
  · exact le_refl _

/-- Helper: a sequence of set_avs_level calls never decreases the AVS peak. -/
theorem setAvsLevel_foldl_peak_le (ls : List Int) (m : AlarmSM) :
    m.avs_peak ≤ (ls.foldl AlarmSM.setAvsLevel m).avs_peak := by
  induction ls generalizing m with
  | nil => exact le_refl _
  | cons l ls ih =>
    exact le_trans (setAvsLevel_peak_le m l) (ih (m.setAvsLevel l))

/-- C1 counterexample: the claim says a cancel issued outside pre/pending
returns a non-success result and leaves the machine unchanged, but a
user cancel issued in the (reachable) triggered state succeeds and moves
the machine back to quiet. -/
theorem c1_cancel_in_triggered_succeeds :
    ((initAlarmSM.triggerZoneTrip .fire24h .smokeDetected .lifeSafety
        .disarmed none none 0).1.state = AlarmState.triggered) ∧
    (((initAlarmSM.triggerZoneTrip .fire24h .smokeDetected .lifeSafety
        .disarmed none none 0).1.triggerUserCancel 5).2.success = true) ∧
    (((initAlarmSM.triggerZoneTrip .fire24h .smokeDetected .lifeSafety
        .disarmed none none 0).1.triggerUserCancel 5).1.state
        = AlarmState.quiet) := by
  decide

/-- C1 (amended): user cancel is valid exactly in pre, pending or
triggered (a cancel in triggered records a canceled-after-trigger event);
resolve is valid only in triggered; in any other state both commands
return a non-success result carrying a non-empty reason and leave every
machine field unchanged. -/
theorem c1_cancel_resolve_validity (m : AlarmSM) (byUser verifiedFalse : Bool)
    (now : Int) :
    ((m.triggerUserCancel now).2.success = true ↔
      m.state = AlarmState.pre ∨ m.state = AlarmState.pending ∨
        m.state = AlarmState.triggered)
    ∧ ((m.triggerResolve byUser verifiedFalse now).2.success = true ↔
        m.state = AlarmState.triggered)
    ∧ (¬ (m.state = AlarmState.pre ∨ m.state = AlarmState.pending ∨
          m.state = AlarmState.triggered) →
        (m.triggerUserCancel now).1 = m ∧
        (m.triggerUserCancel now).2.reason ≠ "")
    ∧ (m.state ≠ AlarmState.triggered →
        (m.triggerResolve byUser verifiedFalse now).1 = m ∧
        (m.triggerResolve byUser verifiedFalse now).2.reason ≠ "") := by
  cases hs : m.state <;>
    cases byUser <;> cases verifiedFalse <;>
      simp [AlarmSM.triggerUserCancel, AlarmSM.triggerResolve,
        AlarmSM.enterCanceled, AlarmSM.enterResolved, AlarmSM.recordTransition,
        failResult, AlarmState.toStr, hs]

/-- C1 witness: the amended theorem applied to the fresh (quiet) machine. -/
theorem c1_cancel_resolve_validity_witness :
    (initAlarmSM.triggerUserCancel 0).1 = initAlarmSM ∧
    (initAlarmSM.triggerUserCancel 0).2.reason ≠ "" :=
  (c1_cancel_resolve_validity initAlarmSM false false 0).2.2.1 (by decide)

/-- C5: the debounce filter never filters a glass-break signal and never
filters a life-safety (smoke/CO/fire) signal, whatever the per-sensor
history is; in particular a first life-safety occurrence is never
silenced. -/
theorem c5_debounce_never_silences (df : DebounceFilter) (sig : Signal)
    (now : Int) :
    sig.signal_type = SignalType.glassBreak ∨
      isLifeSafetyType sig.signal_type = true →
    (df.runFilter sig now).2.1 = false := by
  intro h
  have h' : sig.signal_type = SignalType.glassBreak ∨
      sig.signal_type = SignalType.smokeDetected ∨
      sig.signal_type = SignalType.coDetected ∨
      sig.signal_type = SignalType.fireAlarm := by
    rcases h with h | h
    · exact Or.inl h
    · simp only [isLifeSafetyType, decide_eq_true_eq] at h
      tauto
  rcases h' with h' | h' | h' | h' <;>
    simp [DebounceFilter.runFilter, h', isLifeSafetyType]

/-- C5 witness: a glass-break signal on a sensor with an empty history is
accepted. -/
theorem c5_debounce_never_silences_witness :
    (DebounceFilter.runFilter {} glassSig 7).2.1 = false :=
  c5_debounce_never_silences {} glassSig 7 (Or.inl rfl)

/-- C8: starting from any machine state, issuing two back-to-back cancel
commands leaves the very same machine as issuing one; the second cancel is
a no-op. This holds both for AlarmStateMachine.trigger_user_cancel and for
ModeStateMachine.cancel. -/
theorem c8_cancel_idempotent (m : AlarmSM) (mm : MSM) (t1 t2 u1 u2 : Int) :
    (((m.triggerUserCancel t1).1.triggerUserCancel t2).1 =
      (m.triggerUserCancel t1).1)
    ∧ (((mm.cancel u1).1.cancel u2).1 = (mm.cancel u1).1) := by
  constructor
  · cases hs : m.state <;>
      simp [AlarmSM.triggerUserCancel, AlarmSM.enterCanceled,
        AlarmSM.recordTransition, failResult, hs]
  · cases hs : mm.state <;>
      cases hc : mm.cur_event_id <;>
        simp [MSM.cancel, MSM.endEvent, hs, hc]

/-- C9: avs_peak is monotone under set_avs_level (single call and any
sequence of calls); leaving triggered via disarm or user cancel records
avs_final = avs_peak, while leaving pre or pending via disarm or cancel
records avs_final = 0. -/
theorem c9_avs_peak_final (m : AlarmSM) (l : Int) (ls : List Int) (now : Int) :
    (m.avs_peak ≤ (m.setAvsLevel l).avs_peak)
    ∧ (m.avs_peak ≤ (ls.foldl AlarmSM.setAvsLevel m).avs_peak)
    ∧ (m.state = AlarmState.triggered →
        (m.triggerDisarm now).1.avs_final = m.avs_peak ∧
        (m.triggerUserCancel now).1.avs_final = m.avs_peak)
    ∧ ((m.state = AlarmState.pre ∨ m.state = AlarmState.pending) →
        (m.triggerDisarm now).1.avs_final = 0 ∧
        (m.triggerUserCancel now).1.avs_final = 0) := by
  refine ⟨setAvsLevel_peak_le m l, setAvsLevel_foldl_peak_le ls m, ?_, ?_⟩
  · intro hs
    simp [AlarmSM.triggerDisarm, AlarmSM.triggerUserCancel,
      AlarmSM.enterCanceled, AlarmSM.recordTransition, hs]
  · intro hs
    rcases hs with hs | hs <;>
      simp [AlarmSM.triggerDisarm, AlarmSM.triggerUserCancel,
        AlarmSM.enterCanceled, AlarmSM.recordTransition, hs]

/-- C2: for a security-heavy alert context, the computed user alert level
follows the table: triggered → 3; pending → away 3, night-occupied 2,
night-perimeter 3, home 2; pre → away/night 2, home 1; quiet/canceled/
resolved → 0. -/
theorem c2_security_heavy_alert_table (policy : AlertPolicy)
    (ctx : AlertContext) :
    ctx.workflow_class = WorkflowClass.securityHeavy →
    ((ctx.alarm_state = AlarmState.triggered →
        userAlertLevel policy ctx = 3)
    ∧ (ctx.alarm_state = AlarmState.pending → ctx.house_mode = HouseMode.away →
        userAlertLevel policy ctx = 3)
    ∧ (ctx.alarm_state = AlarmState.pending → ctx.house_mode = HouseMode.night →
        ctx.night_sub_mode = some NightSubMode.nightOccupied →
        userAlertLevel policy ctx = 2)
    ∧ (ctx.alarm_state = AlarmState.pending → ctx.house_mode = HouseMode.night →
        ctx.night_sub_mode = some NightSubMode.nightPerimeter →
        userAlertLevel policy ctx = 3)
    ∧ (ctx.alarm_state = AlarmState.pending → ctx.house_mode = HouseMode.home →
        userAlertLevel policy ctx = 2)
    ∧ (ctx.alarm_state = AlarmState.pre →
        (ctx.house_mode = HouseMode.away ∨ ctx.house_mode = HouseMode.night) →
        userAlertLevel policy ctx = 2)
    ∧ (ctx.alarm_state = AlarmState.pre → ctx.house_mode = HouseMode.home →
        userAlertLevel policy ctx = 1)
    ∧ ((ctx.alarm_state = AlarmState.quiet ∨
        ctx.alarm_state = AlarmState.canceled ∨
        ctx.alarm_state = AlarmState.resolved) →
        userAlertLevel policy ctx = 0)) := by
  intro hwf
  refine ⟨?_, ?_, ?_, ?_, ?_, ?_, ?_, ?_⟩
  · intro h1
    simp [userAlertLevel, securityHeavyLevel, hwf, h1]
  · intro h1 h2
    simp [userAlertLevel, securityHeavyLevel, hwf, h1, h2]
  · intro h1 h2 h3
    simp [userAlertLevel, securityHeavyLevel, hwf, h1, h2, h3]
  · intro h1 h2 h3
    simp [userAlertLevel, securityHeavyLevel, hwf, h1, h2, h3]
  · intro h1 h2
    simp [userAlertLevel, securityHeavyLevel, hwf, h1, h2]
  · intro h1 h2
    rcases h2 with h2 | h2 <;>
      simp [userAlertLevel, securityHeavyLevel, hwf, h1, h2]
  · intro h1 h2
    simp [userAlertLevel, securityHeavyLevel, hwf, h1, h2]
  · intro h1
    rcases h1 with h1 | h1 | h1 <;>
      simp [userAlertLevel, securityHeavyLevel, hwf, h1]

/-- C2 witness: a concrete triggered security-heavy context in away mode
computes alert level 3. -/
theorem c2_security_heavy_alert_table_witness :
    userAlertLevel {}
      { workflow_class := .securityHeavy, alarm_state := .triggered,
        house_mode := .away } = 3 :=
  (c2_security_heavy_alert_table {}
    { workflow_class := .securityHeavy, alarm_state := .triggered,
      house_mode := .away } rfl).1 rfl

/-- C4: requesting pending with an effective entry delay of 0 from quiet
or pre ends the same call in triggered, never observably in pending: for
AlarmStateMachine.trigger_zone_trip on an entry/perimeter security-heavy
trip whose computed delay is 0, and for ModeStateMachine._to_pending with
an effective delay of 0. -/
theorem c4_zero_delay_collapses_pending (m : AlarmSM) (mm : MSM)
    (zt : ZoneType) (st : SignalType) (hm : HouseMode)
    (nsm : Option NightSubMode) (ov : Option Int) (now u : Int)
    (reason : String) (sig : Signal3) (d? : Option Int) :
    ((m.state = AlarmState.quiet ∨ m.state = AlarmState.pre) →
      (zt = ZoneType.entryExit ∨ zt = ZoneType.perimeter) →
      getEntryDelay m.config hm nsm ov = 0 →
      ((m.triggerZoneTrip zt st .securityHeavy hm nsm ov now).1.state
          = AlarmState.triggered ∧
       (m.triggerZoneTrip zt st .securityHeavy hm nsm ov now).2.to_state
          = AlarmState.triggered))
    ∧ ((mm.state = AlarmState3.normal ∨ mm.state = AlarmState3.pre) →
        d?.getD mm.entry_delay_sec = 0 →
        ((mm.toPending reason sig d? u).1.state = AlarmState3.triggered ∧
         (mm.toPending reason sig d? u).2.to_state = AlarmState3.triggered)) := by
  constructor
  · intro hs hz hd
    rcases hs with hs | hs <;> rcases hz with hz | hz <;>
      by_cases hgbst : st = SignalType.glassBreak <;>
        simp [AlarmSM.triggerZoneTrip, AlarmSM.enterTriggered,
          AlarmSM.recordTransition, hz, hs, hd, hgbst]
  · intro hs hd
    rcases hs with hs | hs <;>
      simp [MSM.toPending, MSM.toTriggered, MSM.startEvent, hs, hd]

/-- C4 witness: a fresh machine tripped on an entry-exit zone in
night-perimeter mode (configured delay 0) lands directly in triggered,
and _to_pending with explicit delay 0 does the same. -/
theorem c4_zero_delay_collapses_pending_witness :
    ((initAlarmSM.triggerZoneTrip .entryExit .doorOpen .securityHeavy .night
        (some .nightPerimeter) none 3).1.state = AlarmState.triggered ∧
     (initAlarmSM.triggerZoneTrip .entryExit .doorOpen .securityHeavy .night
        (some .nightPerimeter) none 3).2.to_state = AlarmState.triggered) ∧
    ((MSM.toPending {} "Door opened" ⟨.entryExit, .doorOpen, .doorContact,
        false, 0, "", ""⟩ (some 0) 3).1.state = AlarmState3.triggered ∧
     (MSM.toPending {} "Door opened" ⟨.entryExit, .doorOpen, .doorContact,
        false, 0, "", ""⟩ (some 0) 3).2.to_state = AlarmState3.triggered) := by
  have h := c4_zero_delay_collapses_pending initAlarmSM {} .entryExit .doorOpen
    .night (some .nightPerimeter) none 3 3 "Door opened"
    ⟨.entryExit, .doorOpen, .doorContact, false, 0, "", ""⟩ (some 0)
  exact ⟨h.1 (Or.inl rfl) (Or.inl rfl) (by decide),
         h.2 (Or.inl rfl) (by decide)⟩

/-- C7 counterexample: panic is a security-heavy signal, and this panic
trigger has a matching suspicion-light precursor 10 s earlier on the same
entry point in night-occupied mode, yet the context check reports no
context and no shortened delay (the claim demands min(10, 15/3) = 5). -/
theorem c7_panic_not_shortened :
    isSecurityHeavySignal .panic = true ∧
    contextSignalMatches 100 (some "ep1") ctxPerson = true ∧
    checkForContextEvidence .panic 100 (some "ep1") [ctxPerson] .night
      (some .nightOccupied) 15 = (false, 0, none) := by
  decide

/-- C7 (amended): for a context-enhanceable security-heavy trigger
(door-open, window-open, glass-break or forced-entry; panic is never
context-enhanced) with at least one matching precursor in the last 30 s on
the same entry point, the shortened delay is min(10, ⌊delay/3⌋) exactly
when the house mode is night and the sub-mode is not night-perimeter (an
unspecified sub-mode defaults to occupied); in away mode and
night-perimeter it is None. -/
theorem c7_context_shortening (trig : SignalType) (ts : Int)
    (ep : Option String) (recents : List ContextSignal) (mode : HouseMode)
    (sub : Option NightSubMode) (base : Int) :
    isContextEnhanceableTrigger trig = true →
    (∃ s ∈ recents, contextSignalMatches ts ep s = true) →
    ((checkForContextEvidence trig ts ep recents mode sub base).1 = true ∧
     (checkForContextEvidence trig ts ep recents mode sub base).2.2 =
      (if mode = HouseMode.night ∧ sub ≠ some NightSubMode.nightPerimeter
       then some (min 10 (Int.fdiv base 3)) else none)) := by
  intro htrig hmatch
  obtain ⟨s, hmem, hs⟩ := hmatch
  have hne : recents ≠ [] := by
    intro hnil
    rw [hnil] at hmem
    exact absurd hmem (List.not_mem_nil s)
  have hfilter : 0 <
      (recents.filter (contextSignalMatches ts ep)).length := by
    have : s ∈ recents.filter (contextSignalMatches ts ep) :=
      List.mem_filter.mpr ⟨hmem, hs⟩
    exact List.length_pos.mpr (by intro hnil; rw [hnil] at this; exact absurd this (List.not_mem_nil s))
  have hempty : recents.isEmpty = false := by
    cases recents with
    | nil => exact absurd rfl hne
    | cons a l => rfl
  constructor <;>
    · simp only [checkForContextEvidence, htrig, hempty, hfilter]
      cases mode <;> rcases sub with _ | s' <;> simp

/-- C7 witness: a door-open with the matching precursor shortens the delay
to min(10, 15/3) = 5 in night-occupied, and to None in away mode. -/
theorem c7_context_shortening_witness :
    ((checkForContextEvidence .doorOpen 100 (some "ep1") [ctxPerson] .night
        (some .nightOccupied) 15).2.2 = some 5) ∧
    ((checkForContextEvidence .doorOpen 100 (some "ep1") [ctxPerson] .away
        none 30).2.2 = none) := by
  have h1 := c7_context_shortening .doorOpen 100 (some "ep1") [ctxPerson]
    .night (some .nightOccupied) 15 (by decide) ⟨ctxPerson, by decide, by decide⟩
  have h2 := c7_context_shortening .doorOpen 100 (some "ep1") [ctxPerson]
    .away none 30 (by decide) ⟨ctxPerson, by decide, by decide⟩
  refine ⟨?_, ?_⟩
  · rw [h1.2]
    decide
  · rw [h2.2]
    decide

/-- Helper: the night-occupied entry-exit door-open routing as a function
of the two direction booleans. -/
theorem route_night_door_bools (ri re : Bool) :
    (route .doorOpen .entryExit .night none ri re (some .nightOccupied)
        [] none none 30).workflow_class =
      (if re ∧ ¬ ri then WorkflowClass.securityHeavy
       else WorkflowClass.suspicionLight) := by
  cases ri <;> cases re <;> decide

/-- Helper: the direction pair computed by _get_recent_activity, expressed
through the most recent exterior/interior timestamps of the trimmed
window. -/
theorem getRecentActivity_pair (acts : List (Int × ZoneType × SignalType))
    (now : Int) :
    (getRecentActivity acts now).2 =
      (match lastZoneTs (acts.filter (fun a => a.1 ≥ now - 60)) ZoneType.exterior,
            lastZoneTs (acts.filter (fun a => a.1 ≥ now - 60)) ZoneType.interior with
      | some e, some i => if e > i then (false, true) else (true, false)
      | some _, none => (false, true)
      | none, some _ => (true, false)
      | none, none => (false, false)) := by
  by_cases hemp : (acts.filter (fun a => a.1 ≥ now - 60)).isEmpty = true
  · have hnil : acts.filter (fun a => a.1 ≥ now - 60) = [] :=
      List.isEmpty_iff.mp hemp
    simp only [getRecentActivity]
    rw [hnil]
    rfl
  · simp only [getRecentActivity]
    rw [if_neg hemp]
    rcases he : lastZoneTs (acts.filter (fun a => a.1 ≥ now - 60))
        ZoneType.exterior with _ | e <;>
      rcases hi : lastZoneTs (acts.filter (fun a => a.1 ≥ now - 60))
          ZoneType.interior with _ | i
    · rfl
    · rfl
    · rfl
    · by_cases hc : i < e <;> simp [hc]

/-- C6 counterexample: a door-open in night-occupied whose 60 s look-back
window holds neither precursor is routed to suspicion-light (family
pattern), not to the security-heavy path the claim demands; likewise when
the window holds both precursors with the interior one more recent. -/
theorem c6_direction_neither_counterexample :
    (getRecentActivity [] 100 = ([], false, false)) ∧
    ((route .doorOpen .entryExit .night none false false (some .nightOccupied)
        [] none none 30).workflow_class = WorkflowClass.suspicionLight) ∧
    (getRecentActivity [(40, ZoneType.exterior, SignalType.personDetected),
        (50, ZoneType.interior, SignalType.motionActive)] 100
      = ([(40, ZoneType.exterior, SignalType.personDetected),
          (50, ZoneType.interior, SignalType.motionActive)], true, false)) ∧
    ((route .doorOpen .entryExit .night none true false (some .nightOccupied)
        [] none none 30).workflow_class = WorkflowClass.suspicionLight) := by
  decide

/-- C6 (amended): a door-open in night-occupied mode is routed to the
security-heavy path exactly when the trimmed 60 s window holds exterior
activity that is strictly more recent than every interior activity; when
both kinds are present the later one wins, and with no exterior activity
(including the empty window) the door-open is treated as family activity
and routed to suspicion-light. -/
theorem c6_night_door_direction (acts : List (Int × ZoneType × SignalType))
    (now : Int) :
    ((route .doorOpen .entryExit .night none
        (getRecentActivity acts now).2.1 (getRecentActivity acts now).2.2
        (some .nightOccupied) [] none none 30).workflow_class
      = WorkflowClass.securityHeavy)
    ↔ (match lastZoneTs (acts.filter (fun a => a.1 ≥ now - 60)) ZoneType.exterior,
             lastZoneTs (acts.filter (fun a => a.1 ≥ now - 60)) ZoneType.interior with
       | some e, some i => e > i
       | some _, none => True
       | none, _ => False) := by
  have hpair := getRecentActivity_pair acts now
  rcases he : lastZoneTs (acts.filter (fun a => a.1 ≥ now - 60))
      ZoneType.exterior with _ | e <;>
    rcases hi : lastZoneTs (acts.filter (fun a => a.1 ≥ now - 60))
        ZoneType.interior with _ | i <;>
      rw [he, hi] at hpair
  · simp [hpair, route_night_door_bools]
  · simp [hpair, route_night_door_bools]
  · simp [hpair, route_night_door_bools]
  · by_cases hei : e > i
    · simp [hpair, hei, route_night_door_bools]
    · simp [hpair, hei, route_night_door_bools]

/-- Helper: with the arguments the pipeline passes to the router, a signal
processed in disarmed mode that is neither life-safety nor under an
authorized access window can only produce an event-worthy route when it is
a logistics signal (and logistics signals are never motion-active). -/
theorem route_disarmed_event (st : SignalType) (zt : ZoneType)
    (acc : Option AccessDecision) (ri re : Bool)
    (nsub : Option NightSubMode) :
    isLifeSafetySignal st = false →
    acc ≠ some AccessDecision.authorized →
    shouldCreateEvent (route st zt .disarmed acc ri re nsub [] none none 30)
      .disarmed = true →
    ((route st zt .disarmed acc ri re nsub [] none none 30).workflow_class
        = WorkflowClass.logistics
      ∧ st ≠ SignalType.motionActive) := by
  revert nsub
  revert acc
  revert zt
  revert st
  revert ri re
  decide

/-- Helper: when the routed workflow is logistics (package signals, which
are never motion-active), _update_alarm_sm leaves the machine untouched
and produces no transition. -/
theorem updateAlarmSM_logistics (sm : AlarmSM) (hm : HouseMode)
    (nsm : Option NightSubMode) (topo : Option Topology) (sig : Signal)
    (evd : Evidence) (rr : RouteResult) (now : Int) :
    rr.workflow_class = WorkflowClass.logistics →
    sig.signal_type ≠ SignalType.motionActive →
    updateAlarmSM sm hm nsm topo sig evd rr now = (sm, none) := by
  intro h1 h2
  simp [updateAlarmSM, h1, h2]

/-- C3 counterexample: the fresh pipeline is disarmed with a quiet machine,
yet processing a smoke signal (life-safety ignores mode) drives the alarm
machine to triggered, so disarmed mode does not keep every machine quiet. -/
theorem c3_smoke_in_disarmed_triggers :
    ({} : Pipeline).houseMode = HouseMode.disarmed ∧
    ({} : Pipeline).alarmSM.state = AlarmState.quiet ∧
    (Pipeline.process {} smokeSig none 100).1.alarmSM.state
      = AlarmState.triggered := by
  decide

/-- C3 (amended): DisarmedStateMachine.process never changes the machine;
and in the disarmed pipeline a processed signal leaves the alarm machine
untouched as long as it is not life-safety (which triggers regardless of
mode) and not under an authorized access window (which opens a pre-alert
audit session). -/
theorem c3_disarmed_suppression (m : MSM) (sig3 : Signal3) (p : Pipeline)
    (sig : Signal) (acc : Option AccessDecision) (now : Int) :
    ((m.disarmedProcess sig3).1 = m)
    ∧ (p.houseMode = HouseMode.disarmed →
        isLifeSafetySignal sig.signal_type = false →
        acc ≠ some AccessDecision.authorized →
        (p.process sig acc now).1.alarmSM = p.alarmSM) := by
  constructor
  · rfl
  · intro hmode hls hacc
    simp only [Pipeline.process]
    by_cases hf : (DebounceFilter.runFilter p.debounce sig now).2.1 = true
    · rw [if_pos hf]
    · rw [if_neg hf]
      rw [hmode]
      by_cases hsc : shouldCreateEvent
          (route sig.signal_type (buildEvidence p.topology p.counter sig).zone_type
            .disarmed acc (getRecentActivity p.recentActivity now).2.1
            (getRecentActivity p.recentActivity now).2.2 p.nightSubMode
            [] none none 30) .disarmed = true
      · have hinfo := route_disarmed_event sig.signal_type
          (buildEvidence p.topology p.counter sig).zone_type acc
          (getRecentActivity p.recentActivity now).2.1
          (getRecentActivity p.recentActivity now).2.2 p.nightSubMode
          hls hacc hsc
        rw [if_neg (by simp [hsc])]
        rw [updateAlarmSM_logistics p.alarmSM .disarmed p.nightSubMode
          p.topology sig (buildEvidence p.topology p.counter sig) _ now
          hinfo.1 hinfo.2]
      · rw [if_pos (by simp [hsc])]

/-- C3 witness: a door-open processed by the fresh disarmed pipeline
leaves the alarm machine untouched. -/
theorem c3_disarmed_suppression_witness :
    (Pipeline.process {} doorSig none 100).1.alarmSM
      = ({} : Pipeline).alarmSM :=
  (c3_disarmed_suppression {}
    ⟨.entryExit, .doorOpen, .doorContact, false, 0, "", ""⟩
    {} doorSig none 100).2 rfl (by decide) (by decide)

/-- Helper: _maybe_upgrade_workflow never decreases the workflow-class
priority of the event. -/
theorem wfPriority_maybeUpgrade_le (e : SecurityEvent) (rr : RouteResult) :
    wfPriority e.workflow_class ≤
      wfPriority (maybeUpgradeWorkflow e rr).workflow_class := by
  by_cases h : wfPriority rr.workflow_class > wfPriority e.workflow_class
  · simp only [maybeUpgradeWorkflow, if_pos h]
    exact le_of_lt h
  · simp only [maybeUpgradeWorkflow, if_neg h]
    exact le_refl _

/-- Helper: the workflow class chosen by _maybe_upgrade_workflow, as a
conditional. -/
theorem maybeUpgrade_workflow_eq (e : SecurityEvent) (rr : RouteResult) :
    (maybeUpgradeWorkflow e rr).workflow_class =
      (if wfPriority rr.workflow_class > wfPriority e.workflow_class
       then rr.workflow_class else e.workflow_class) := by
  by_cases h : wfPriority rr.workflow_class > wfPriority e.workflow_class <;>
    simp [maybeUpgradeWorkflow, h]

/-- Helper: recomputing alert levels does not change the event workflow
class. -/
theorem applyAlerts_workflow (pol : AlertPolicy) (ev : SecurityEvent)
    (led : List Evidence) :
    (applyAlerts pol ev led).workflow_class = ev.workflow_class := by
  simp only [applyAlerts, SecurityEvent.updatePeakLevels]
  split <;> split <;> rfl

/-- Helper: updating an existing open event in _manage_event never
decreases its workflow-class priority. -/
theorem manageEvent_update_priority (ev : SecurityEvent) (sm : AlarmSM)
    (rr : RouteResult) (sig : Signal) (evd : Evidence)
    (tr : Option TransitionResult) (hm : HouseMode)
    (nsm : Option NightSubMode) (fid : Nat) (now : Int) :
    wfPriority ev.workflow_class ≤
      wfPriority (manageEvent (some ev) sm rr sig evd tr hm nsm fid
        now).1.workflow_class := by
  simp only [manageEvent]
  repeat' split
  all_goals simp only [maybeUpgrade_workflow_eq]
  all_goals split
  all_goals
    first
    | exact le_of_lt (by assumption)
    | exact le_refl _

/-- C10: the workflow class of the active event is never downgraded:
_maybe_upgrade_workflow only raises the priority, and one process() step
on a pipeline with an open event yields an event of priority at least the
previous one (under logistics < suspicion-light < security-heavy <
life-safety). -/
theorem c10_workflow_never_downgraded (p : Pipeline) (sig : Signal)
    (acc : Option AccessDecision) (now : Int) (ev : SecurityEvent)
    (e : SecurityEvent) (rr : RouteResult) :
    (wfPriority e.workflow_class ≤
      wfPriority (maybeUpgradeWorkflow e rr).workflow_class)
    ∧ (p.activeEvent = some ev →
        ∃ ev', (p.process sig acc now).1.activeEvent = some ev' ∧
          wfPriority ev.workflow_class ≤ wfPriority ev'.workflow_class) := by
  refine ⟨wfPriority_maybeUpgrade_le e rr, ?_⟩
  intro hae
  simp only [Pipeline.process]
  by_cases hf : (DebounceFilter.runFilter p.debounce sig now).2.1 = true
  · rw [if_pos hf]
    exact ⟨ev, hae, le_refl _⟩
  · rw [if_neg hf]
    by_cases hsc : shouldCreateEvent
        (route sig.signal_type (buildEvidence p.topology p.counter sig).zone_type
          p.houseMode acc (getRecentActivity p.recentActivity now).2.1
          (getRecentActivity p.recentActivity now).2.2 p.nightSubMode
          [] none none 30) p.houseMode = true
    · rw [if_neg (by simp [hsc])]
      rw [hae]
      refine ⟨_, rfl, ?_⟩
      rw [applyAlerts_workflow]
      exact manageEvent_update_priority ev _ _ sig _ _ p.houseMode
        p.nightSubMode p.counter now
    · rw [if_pos (by simp [hsc])]
      exact ⟨ev, hae, le_refl _⟩

/-- C10 witness: processing a door-open in the away pipeline that carries
an open suspicion-light event yields an event of no lower priority. -/
theorem c10_workflow_never_downgraded_witness :
    ∃ ev', (awayPipeline.process doorSig none 100).1.activeEvent = some ev' ∧
      wfPriority openSuspicionEvent.workflow_class ≤
        wfPriority ev'.workflow_class :=
  (c10_workflow_never_downgraded awayPipeline doorSig none 100
    openSuspicionEvent openSuspicionEvent
    { workflow_class := .suspicionLight, event_type := .preAlert }).2 rfl

/-- C9 witness: the triggered machine with peak 2 preserves the peak into
avs_final on user cancel and disarm. -/
theorem c9_avs_peak_final_witness :
    (((initAlarmSM.triggerZoneTrip .fire24h .smokeDetected .lifeSafety
        .disarmed none none 0).1.setAvsLevel 2).triggerDisarm 9).1.avs_final
      = ((initAlarmSM.triggerZoneTrip .fire24h .smokeDetected .lifeSafety
        .disarmed none none 0).1.setAvsLevel 2).avs_peak ∧
    (((initAlarmSM.triggerZoneTrip .fire24h .smokeDetected .lifeSafety
        .disarmed none none 0).1.setAvsLevel 2).triggerUserCancel 9).1.avs_final
      = ((initAlarmSM.triggerZoneTrip .fire24h .smokeDetected .lifeSafety
        .disarmed none none 0).1.setAvsLevel 2).avs_peak :=
  (c9_avs_peak_final ((initAlarmSM.triggerZoneTrip .fire24h .smokeDetected
    .lifeSafety .disarmed none none 0).1.setAvsLevel 2) 0 [] 9).2.2.1 (by decide)

end NgEdge

